import Mathlib

/-!
Verification of the deferred-shading example (src/src/deferred/main.rs).

The numeric routines of the program are embedded over `ℚ`; the external
math functions it calls (`sin`, `cos`, `sqrt` from the standard library /
cgmath, and `perlin2` from the noise crate) are abstracted as fields of a
`MathEnv` record, since their code is not part of this repository.  GPU
resources (textures, frames) are modelled by explicit records with a
counter-based factory, and the per-frame draw submission is modelled as a
list of commands in program order.
-/

namespace GfxDeferred

/-- A 3-component vector of exact rationals, standing for cgmath `Vector3<f32>`
with real-valued arithmetic. -/
structure Vec3 where
  x : ℚ
  y : ℚ
  z : ℚ
deriving DecidableEq, Repr

/-- A 4-component vector, standing for GLSL `vec4`. -/
structure Vec4 where
  x : ℚ
  y : ℚ
  z : ℚ
  w : ℚ
deriving DecidableEq, Repr

/-- The external math functions the program calls.  `perlin2` takes the seed
and the two coordinates; `sin`, `cos`, `sqrt` are the library functions used
by cgmath and the light/camera update code. -/
structure MathEnv where
  sin : ℚ → ℚ
  cos : ℚ → ℚ
  sqrt : ℚ → ℚ
  perlin2 : ℕ → ℚ → ℚ → ℚ

/-- cgmath `Vector3::cross`. -/
def cross (a b : Vec3) : Vec3 :=
  ⟨a.y * b.z - a.z * b.y, a.z * b.x - a.x * b.z, a.x * b.y - a.y * b.x⟩

/-- cgmath `Vector3::dot`. -/
def dot (a b : Vec3) : ℚ :=
  a.x * b.x + a.y * b.y + a.z * b.z

/-- cgmath `Vector3::mul_s`: scale every component. -/
def mulS (v : Vec3) (s : ℚ) : Vec3 :=
  ⟨v.x * s, v.y * s, v.z * s⟩

/-- cgmath `Vector3::length`, with the square root taken from the
environment. -/
def vlength (env : MathEnv) (v : Vec3) : Vec3 → ℚ :=
  fun w => env.sqrt (dot v w)

/-- cgmath `EuclideanVector::normalize`: `self.mul_s(1 / self.length())`. -/
def vnormalize (env : MathEnv) (v : Vec3) : Vec3 :=
  mulS v (1 / env.sqrt (dot v v))

/-- `calculate_normal` from main.rs: sample points at `x ± 0.001` and
`y ± 0.001`, gradient quotients over `s_x1 - s_x0` and `s_y1 - s_y0`, cross
the two tangent vectors, normalize. -/
def calculate_normal (env : MathEnv) (seed : ℕ) (x y : ℚ) : Vec3 :=
  let s_x0 := x - 1/1000
  let s_x1 := x + 1/1000
  let s_y0 := y - 1/1000
  let s_y1 := y + 1/1000
  let dzdx := (env.perlin2 seed s_x1 y - env.perlin2 seed s_x0 y) / (s_x1 - s_x0)
  let dzdy := (env.perlin2 seed x s_y1 - env.perlin2 seed x s_y0) / (s_y1 - s_y0)
  vnormalize env (cross ⟨1, 0, dzdx⟩ ⟨0, 1, dzdy⟩)

/-- Modelled from the spec: the surface normal as worded in the spec — the
partial derivatives of the height field by central finite differences with
step `h = 0.001`, i.e. `(f(x+h) - f(x-h)) / (2h)` along each axis, tangent
vectors `(1,0,dz/dx)` and `(0,1,dz/dy)` crossed and the result normalized. -/
def specNormal (env : MathEnv) (seed : ℕ) (x y : ℚ) : Vec3 :=
  let h : ℚ := 1/1000
  let dzdx := (env.perlin2 seed (x + h) y - env.perlin2 seed (x - h) y) / (2 * h)
  let dzdy := (env.perlin2 seed x (y + h) - env.perlin2 seed x (y - h)) / (2 * h)
  vnormalize env (cross ⟨1, 0, dzdx⟩ ⟨0, 1, dzdy⟩)

/-- `calculate_color` from main.rs. -/
def calculate_color (height : ℚ) : Vec3 :=
  if height > 8 then ⟨9/10, 9/10, 9/10⟩       -- white
  else if height > 0 then ⟨7/10, 7/10, 7/10⟩  -- gray
  else if height > -5 then ⟨1/5, 7/10, 1/5⟩   -- green
  else ⟨1/5, 1/5, 7/10⟩                       -- blue

/-- `terrain_scale` from main.rs: `Vector3::new(25.0, 25.0, 25.0)`. -/
def terrain_scale : Vec3 := ⟨25, 25, 25⟩

/-- `NUM_LIGHTS` from main.rs. -/
def NUM_LIGHTS : ℕ := 250

/-- A terrain vertex as produced by the mesh generation closure. -/
structure TerrainVertex where
  pos : Vec3
  normal : Vec3
  color : Vec3
deriving DecidableEq, Repr

/-- The closure mapped over the plane's shared vertices in main.rs:
`h = terrain_scale.z * perlin2(seed, [x, y])`, position
`[terrain_scale.x * x, terrain_scale.y * y, h]`, normal from
`calculate_normal`, color from `calculate_color h`. -/
def terrainVertex (env : MathEnv) (seed : ℕ) (p : ℚ × ℚ) : TerrainVertex :=
  let h := terrain_scale.z * env.perlin2 seed p.1 p.2
  { pos := ⟨terrain_scale.x * p.1, terrain_scale.y * p.2, h⟩
    normal := calculate_normal env seed p.1 p.2
    color := calculate_color h }

/-- The terrain vertex buffer: the vertex closure mapped over the generator's
coordinate list (the genmesh plane generator is an external crate, so its
coordinate list is left as a parameter). -/
def terrainVertexData (env : MathEnv) (seed : ℕ) (coords : List (ℚ × ℚ)) :
    List TerrainVertex :=
  coords.map (terrainVertex env seed)

/-- The body of the per-frame light update loop in main.rs, for light `i` at
frame time `time`:
`r = 1 - (fi*fi)/((NUM_LIGHTS*NUM_LIGHTS) as f32)`,
`x = r*cos(0.2*time + fi)`, `y = r*sin(0.2*time + fi)`,
`h = perlin2(seed, [x, y])`, and the written entry is
`[terrain_scale.x*x, terrain_scale.y*y, terrain_scale.z*h + 0.5]`. -/
def lightPos (env : MathEnv) (seed : ℕ) (time : ℚ) (i : ℕ) : Vec3 :=
  let fi : ℚ := i
  let r := 1 - (fi * fi) / ((NUM_LIGHTS * NUM_LIGHTS : ℕ) : ℚ)
  let x := r * env.cos (1/5 * time + fi)
  let y := r * env.sin (1/5 * time + fi)
  let h := env.perlin2 seed x y
  ⟨terrain_scale.x * x, terrain_scale.y * y, terrain_scale.z * h + 1/2⟩

/-- The whole light position vector after one update pass. -/
def light_pos_vec (env : MathEnv) (seed : ℕ) (time : ℚ) : List Vec3 :=
  (List.range NUM_LIGHTS).map (lightPos env seed time)

/-- The claim's light position as stated: `(r·cos θ, r·sin θ)` scaled by the
terrain extents, with height the height-field value
`terrain_scale.z · perlin2(x, y)` — no vertical offset. -/
def claimedLightPos (env : MathEnv) (seed : ℕ) (time : ℚ) (i : ℕ) : Vec3 :=
  let r : ℚ := 1 - ((i : ℚ) * i) / ((NUM_LIGHTS : ℚ) * NUM_LIGHTS)
  let x := r * env.cos (1/5 * time + (i : ℚ))
  let y := r * env.sin (1/5 * time + (i : ℚ))
  ⟨terrain_scale.x * x, terrain_scale.y * y, terrain_scale.z * env.perlin2 seed x y⟩

/-- The amended light position: as the claim states it, except that the code
adds a vertical offset of `0.5` above the scaled height-field value. -/
def claimedLightPosAmended (env : MathEnv) (seed : ℕ) (time : ℚ) (i : ℕ) : Vec3 :=
  let r : ℚ := 1 - ((i : ℚ) * i) / ((NUM_LIGHTS : ℚ) * NUM_LIGHTS)
  let x := r * env.cos (1/5 * time + (i : ℚ))
  let y := r * env.sin (1/5 * time + (i : ℚ))
  ⟨terrain_scale.x * x, terrain_scale.y * y,
   terrain_scale.z * env.perlin2 seed x y + 1/2⟩

/-- A concrete, fully computable environment used for counterexamples and
witnesses: constant noise 1, `cos = 1`, `sin = 0`, identity square root. -/
def envCE : MathEnv :=
  { sin := fun _ => 0
    cos := fun _ => 1
    sqrt := fun q => q
    perlin2 := fun _ _ _ => 1 }

/-- gfx `tex::TextureKind` (the constructors used by the example, plus
its 1D and 3D neighbours so the 2D choice is meaningful). -/
inductive TextureKind
  | Texture1D
  | Texture2D
  | Texture3D
deriving DecidableEq, Repr

/-- gfx `tex::Components`. -/
inductive Components
  | R
  | RG
  | RGB
  | RGBA
deriving DecidableEq, Repr

/-- gfx `attrib::FloatSize`. -/
inductive FloatSize
  | F16
  | F32
  | F64
deriving DecidableEq, Repr

/-- gfx `tex::Format` (the constructors used by the example). -/
inductive TexFormat
  | Float (c : Components) (s : FloatSize)
  | DEPTH24_STENCIL8
deriving DecidableEq, Repr

/-- gfx `tex::TextureInfo`. -/
structure TextureInfo where
  width : ℕ
  height : ℕ
  depth : ℕ
  levels : ℕ
  kind : TextureKind
  format : TexFormat
deriving DecidableEq, Repr

/-- A texture handle: the id the factory gave it plus its creation info. -/
structure TextureHandle where
  id : ℕ
  info : TextureInfo
deriving DecidableEq, Repr

/-- gfx `Plane`: a texture attachment at a mip level and optional layer. -/
inductive Plane
  | Texture (t : TextureHandle) (level : ℕ) (layer : Option ℕ)
deriving DecidableEq, Repr

/-- gfx `Frame`: a render target with color and depth attachments. -/
structure Frame where
  width : ℕ
  height : ℕ
  colors : List Plane
  depth : Option Plane
deriving DecidableEq, Repr

/-- gfx `Frame::empty`. -/
def Frame.empty (w h : ℕ) : Frame :=
  { width := w, height := h, colors := [], depth := none }

/-- The factory's `create_texture`, modelled by a fresh-id counter: returns
the new handle and the next counter value. -/
def createTexture (next : ℕ) (info : TextureInfo) : TextureHandle × ℕ :=
  (⟨next, info⟩, next + 1)

/-- `texture_info_float` from `create_g_buffer`: 2D, RGBA, 32-bit float,
one mip level. -/
def texture_info_float (w h : ℕ) : TextureInfo :=
  { width := w, height := h, depth := 1, levels := 1,
    kind := TextureKind.Texture2D,
    format := TexFormat.Float Components.RGBA FloatSize.F32 }

/-- `texture_info_depth` from `create_g_buffer`. -/
def texture_info_depth (w h : ℕ) : TextureInfo :=
  { width := w, height := h, depth := 1, levels := 1,
    kind := TextureKind.Texture2D,
    format := TexFormat.DEPTH24_STENCIL8 }

/-- `create_g_buffer` from main.rs: four textures (position, normal, diffuse,
depth) and a frame whose colors are the first three and whose depth plane is
the fourth. -/
def create_g_buffer (w h : ℕ) (next : ℕ) :
    Frame × TextureHandle × TextureHandle × TextureHandle × TextureHandle × ℕ :=
  let r0 := createTexture next (texture_info_float w h)
  let texture_pos := r0.1
  let r1 := createTexture r0.2 (texture_info_float w h)
  let texture_normal := r1.1
  let r2 := createTexture r1.2 (texture_info_float w h)
  let texture_diffuse := r2.1
  let r3 := createTexture r2.2 (texture_info_depth w h)
  let texture_depth := r3.1
  let frame : Frame :=
    { Frame.empty w h with
      colors := [Plane.Texture texture_pos 0 none,
                 Plane.Texture texture_normal 0 none,
                 Plane.Texture texture_diffuse 0 none]
      depth := some (Plane.Texture texture_depth 0 none) }
  (frame, texture_pos, texture_normal, texture_diffuse, texture_depth, r3.2)

/-- `create_res_buffer` from main.rs: one float color texture, and the depth
plane taken from the texture handle passed in. -/
def create_res_buffer (w h : ℕ) (next : ℕ) (texture_depth : TextureHandle) :
    Frame × TextureHandle × TextureHandle × ℕ :=
  let r0 := createTexture next (texture_info_float w h)
  let texture_frame := r0.1
  let frame : Frame :=
    { Frame.empty w h with
      colors := [Plane.Texture texture_frame 0 none]
      depth := some (Plane.Texture texture_depth 0 none) }
  (frame, texture_frame, texture_depth, r0.2)

/-- The buffer-creation sequence of `main`: the g-buffer first, then the
result buffer built over the g-buffer's depth texture. -/
def main_buffers (w h : ℕ) :
    (Frame × TextureHandle × TextureHandle × TextureHandle × TextureHandle × ℕ) ×
    (Frame × TextureHandle × TextureHandle × ℕ) :=
  let g := create_g_buffer w h 0
  let r := create_res_buffer w h g.2.2.2.2.2 g.2.2.2.2.1
  (g, r)

/-- The draw batches of the example (terrain, light, emitter, and the blit
batch carrying the texture it samples). -/
inductive BatchKind
  | terrain
  | light
  | emitter
  | blit (tex : TextureHandle)
deriving DecidableEq, Repr

/-- A render target of a command: an offscreen frame or the window. -/
inductive Target
  | offscreen (f : Frame)
  | window
deriving DecidableEq, Repr

/-- One renderer command, in submission order. -/
inductive Cmd
  | clear (t : Target)
  | draw (b : BatchKind) (t : Target)
  | drawInstanced (b : BatchKind) (count : ℕ) (base : ℕ) (t : Target)
deriving DecidableEq, Repr

/-- The per-frame command sequence of the main loop: clear the g-buffer and
draw the terrain into it; then either blit the selected debug texture to the
window, or clear the result buffer, draw the instanced light and emitter
batches into it, and blit the result-buffer texture to the window. -/
def renderFrame (g_buffer res_buffer : Frame) (texture_frame : TextureHandle)
    (debug_buf : Option TextureHandle) : List Cmd :=
  [Cmd.clear (Target.offscreen g_buffer),
   Cmd.draw BatchKind.terrain (Target.offscreen g_buffer)] ++
  match debug_buf with
  | some tex =>
      [Cmd.clear Target.window,
       Cmd.draw (BatchKind.blit tex) Target.window]
  | none =>
      [Cmd.clear (Target.offscreen res_buffer),
       Cmd.drawInstanced BatchKind.light NUM_LIGHTS 0 (Target.offscreen res_buffer),
       Cmd.drawInstanced BatchKind.emitter NUM_LIGHTS 0 (Target.offscreen res_buffer),
       Cmd.clear Target.window,
       Cmd.draw (BatchKind.blit texture_frame) Target.window]

/-- Is this command one of the lighting-pass draws (light or emitter batch)? -/
def isLightingDraw : Cmd → Bool
  | Cmd.drawInstanced BatchKind.light _ _ _ => true
  | Cmd.drawInstanced BatchKind.emitter _ _ _ => true
  | _ => false

/-- Is this command an instanced draw? -/
def isInstancedDraw : Cmd → Bool
  | Cmd.drawInstanced _ _ _ _ => true
  | _ => false

/-- Is this command a blit draw? -/
def isBlitDraw : Cmd → Bool
  | Cmd.draw (BatchKind.blit _) _ => true
  | _ => false

/-- `LIGHT_VERTEX_SRC` in main.rs: the light vertex shader reads this
instance's entry of `u_LightPosBlock`, outputs its xyz as `v_LightPos`, and
positions the cube vertex at `u_Transform * vec4(u_Radius*a_Pos + off, 1)`.
The matrix multiply is abstracted as a function on `Vec4`. -/
def light_vertex_shader (transform : Vec4 → Vec4) (radius : ℚ)
    (offs : Fin NUM_LIGHTS → Vec4) (instanceID : Fin NUM_LIGHTS)
    (aPos : Vec3) : Vec3 × Vec4 :=
  let o := offs instanceID
  (⟨o.x, o.y, o.z⟩,
   transform ⟨radius * aPos.x + o.x, radius * aPos.y + o.y,
              radius * aPos.z + o.z, 1⟩)

/-- The keys the event loop reacts to when choosing the debug buffer. -/
inductive Key
  | Numpad0
  | Numpad1
  | Numpad2
  | Numpad3
  | Numpad4
  | Other
deriving DecidableEq, Repr

/-- The debug-buffer selection of the event loop: numpad 1-4 select the
position, normal, diffuse and depth textures, numpad 0 selects none, and
any other event leaves the selection unchanged. -/
def handle_key (tpos tnorm tdiff tdep : TextureHandle)
    (k : Key) (d : Option TextureHandle) : Option TextureHandle :=
  match k with
  | Key.Numpad1 => some tpos
  | Key.Numpad2 => some tnorm
  | Key.Numpad3 => some tdiff
  | Key.Numpad4 => some tdep
  | Key.Numpad0 => none
  | Key.Other => d

/-- The camera position of the main loop at frame time `time`:
`x = sin(0.05*time)`, `y = cos(0.05*time)`, position `(x*32, y*32, 16)`. -/
def camPos (env : MathEnv) (time : ℚ) : Vec3 :=
  let x := env.sin (1/20 * time)
  let y := env.cos (1/20 * time)
  ⟨x * 32, y * 32, 16⟩

/-- The matrix-valued operations of the camera block, abstracted: cgmath's
`look_at`, the fixed projection matrix, and matrix multiplication. -/
structure CameraCtx (M : Type) where
  lookAt : Vec3 → Vec3 → Vec3 → M
  proj : M
  mulm : M → M → M

/-- The shader parameters the camera block mutates. -/
structure SceneParams (M : Type) where
  terrainView : M
  terrainCamPos : Vec3
  lightTransform : M
  lightCamPos : Vec3
  emitterTransform : M
deriving Repr

/-- The camera update block of the main loop: compute `cam_pos`, build the
look-at view toward the origin with up `+z`, and write the view, the
projection-times-view transforms, and the camera position into the terrain,
light and emitter parameters. -/
def update_camera (M : Type) (ctx : CameraCtx M) (env : MathEnv) (time : ℚ)
    (s : SceneParams M) : SceneParams M :=
  let cam_pos := camPos env time
  let view := ctx.lookAt cam_pos ⟨0, 0, 0⟩ ⟨0, 0, 1⟩
  { s with
    terrainView := view
    terrainCamPos := cam_pos
    lightTransform := ctx.mulm ctx.proj view
    lightCamPos := cam_pos
    emitterTransform := ctx.mulm ctx.proj view }

/-! ## Theorems -/

/-- C2: `calculate_normal` estimates the surface normal by central finite
differences with step 0.001 of the noise height field along both axes — the
partial derivatives from samples at `x ± 0.001` and `y ± 0.001` divided by
`2·0.001` — with the tangent vectors `(1,0,dz/dx)` and `(0,1,dz/dy)` crossed
and the result normalized, for every environment, seed and coordinate pair. -/
theorem calculate_normal_spec (env : MathEnv) (seed : ℕ) (x y : ℚ) :
    calculate_normal env seed x y = specNormal env seed x y := by
  have hx : (x + 1/1000) - (x - 1/1000) = 2 * (1/1000 : ℚ) := by ring
  have hy : (y + 1/1000) - (y - 1/1000) = 2 * (1/1000 : ℚ) := by ring
  simp only [calculate_normal, specNormal]
  rw [hx, hy]

/-- C8: `calculate_color` partitions the height line by the thresholds 8, 0
and −5, returning white above 8, gray on (0, 8], green on (−5, 0] and blue
at or below −5; being a Lean function it is total. -/
theorem calculate_color_partition (h : ℚ) :
    (8 < h ∧ calculate_color h = ⟨9/10, 9/10, 9/10⟩) ∨
    (0 < h ∧ h ≤ 8 ∧ calculate_color h = ⟨7/10, 7/10, 7/10⟩) ∨
    (-5 < h ∧ h ≤ 0 ∧ calculate_color h = ⟨1/5, 7/10, 1/5⟩) ∨
    (h ≤ -5 ∧ calculate_color h = ⟨1/5, 1/5, 7/10⟩) := by
  unfold calculate_color
  split_ifs with h1 h2 h3
  · exact Or.inl ⟨h1, rfl⟩
  · exact Or.inr (Or.inl ⟨h2, by linarith, rfl⟩)
  · exact Or.inr (Or.inr (Or.inl ⟨h3, by linarith, rfl⟩))
  · exact Or.inr (Or.inr (Or.inr ⟨by linarith, rfl⟩))

/-- C10: every frame, the camera update sets the camera position to
`(32·sin(0.05·t), 32·cos(0.05·t), 16)`, sets the view to the look-at
transform from that position toward the origin with up `+z`, and propagates
the same camera position into both the terrain and the light parameters
(and the projection-times-view transform into the light and emitter
parameters). -/
theorem camera_update_spec (M : Type) (ctx : CameraCtx M) (env : MathEnv)
    (time : ℚ) (s : SceneParams M) :
    (update_camera M ctx env time s).terrainCamPos =
      ⟨32 * env.sin (1/20 * time), 32 * env.cos (1/20 * time), 16⟩ ∧
    (update_camera M ctx env time s).lightCamPos =
      (update_camera M ctx env time s).terrainCamPos ∧
    (update_camera M ctx env time s).terrainView =
      ctx.lookAt (update_camera M ctx env time s).terrainCamPos ⟨0, 0, 0⟩ ⟨0, 0, 1⟩ ∧
    (update_camera M ctx env time s).lightTransform =
      ctx.mulm ctx.proj (update_camera M ctx env time s).terrainView ∧
    (update_camera M ctx env time s).emitterTransform =
      (update_camera M ctx env time s).lightTransform := by
  refine ⟨?_, rfl, rfl, rfl, rfl⟩
  unfold update_camera camPos
  simp [mul_comm]

/-- C1 counterexample: in the concrete environment `envCE` at time 0, light 0
is written with height `25.5`, not the height-field value `25` the claim
states (the code adds a vertical offset of 0.5), so the claimed update
equation fails at this input. -/
theorem light_height_offset_cex :
    ¬ ((light_pos_vec envCE 0 0)[0]? = some (claimedLightPos envCE 0 0 0)) := by
  unfold light_pos_vec
  rw [List.getElem?_map, List.getElem?_range (by norm_num [NUM_LIGHTS])]
  simp only [Option.map_some', Option.some.injEq]
  unfold lightPos claimedLightPos envCE terrain_scale NUM_LIGHTS
  norm_num [Vec3.mk.injEq]

/-- C1 (amended): for every frame time and every light index `i < NUM_LIGHTS`,
the update writes light `i` at `(r·cos θ, r·sin θ)` with `r = 1 − i²/N²` and
`θ = 0.2·t + i`, scaled by the terrain extents, and writes its height as the
height-field value `terrain_scale.z · perlin2(x, y)` plus an offset of 0.5. -/
theorem light_pos_update_amended (env : MathEnv) (seed : ℕ) (time : ℚ)
    (i : ℕ) (hi : i < NUM_LIGHTS) :
    (light_pos_vec env seed time)[i]? =
      some (claimedLightPosAmended env seed time i) := by
  unfold light_pos_vec
  rw [List.getElem?_map, List.getElem?_range hi]
  unfold lightPos claimedLightPosAmended
  norm_num [NUM_LIGHTS]

/-- C1 witness: the amended update equation instantiated at the concrete
environment `envCE`, time 1 and light index 3. -/
theorem light_pos_update_amended_witness :
    (light_pos_vec envCE 0 1)[3]? = some (claimedLightPosAmended envCE 0 1 3) :=
  light_pos_update_amended envCE 0 1 3 (by decide)

/-- C3: every vertex of the generated terrain mesh comes from a coordinate
pair `(x, y)` of the plane generator and has position
`(terrain_scale.x · x, terrain_scale.y · y, terrain_scale.z · perlin2(x, y))`:
the height is the noise sample scaled by the z extent, the horizontal
position the coordinates scaled by the x and y extents. -/
theorem terrain_vertex_heights (env : MathEnv) (seed : ℕ)
    (coords : List (ℚ × ℚ)) (v : TerrainVertex)
    (hv : v ∈ terrainVertexData env seed coords) :
    ∃ x y, (x, y) ∈ coords ∧
      v.pos = ⟨terrain_scale.x * x, terrain_scale.y * y,
               terrain_scale.z * env.perlin2 seed x y⟩ := by
  unfold terrainVertexData at hv
  rcases List.mem_map.mp hv with ⟨⟨x, y⟩, hmem, rfl⟩
  exact ⟨x, y, hmem, rfl⟩

/-- C3 witness: the vertex generated from the coordinate pair `(0, 0)` in the
concrete environment `envCE`. -/
theorem terrain_vertex_heights_witness :
    ∃ x y, (x, y) ∈ [((0 : ℚ), (0 : ℚ))] ∧
      (terrainVertex envCE 0 (0, 0)).pos =
        ⟨terrain_scale.x * x, terrain_scale.y * y,
         terrain_scale.z * envCE.perlin2 0 x y⟩ :=
  terrain_vertex_heights envCE 0 [((0 : ℚ), (0 : ℚ))]
    (terrainVertex envCE 0 (0, 0)) (by simp [terrainVertexData])

/-- C5: `create_g_buffer` returns a frame whose color attachments are exactly
the three returned render-target textures (position, normal, diffuse), each a
2D RGBA 32-bit-float texture of the given size with one mip level and three
pairwise distinct handles, together with a `DEPTH24_STENCIL8` depth
attachment of the same size. -/
theorem create_g_buffer_spec (w h n : ℕ) :
    (create_g_buffer w h n).1.colors =
      [Plane.Texture (create_g_buffer w h n).2.1 0 none,
       Plane.Texture (create_g_buffer w h n).2.2.1 0 none,
       Plane.Texture (create_g_buffer w h n).2.2.2.1 0 none] ∧
    (create_g_buffer w h n).2.1.info =
      { width := w, height := h, depth := 1, levels := 1,
        kind := TextureKind.Texture2D,
        format := TexFormat.Float Components.RGBA FloatSize.F32 } ∧
    (create_g_buffer w h n).2.2.1.info =
      { width := w, height := h, depth := 1, levels := 1,
        kind := TextureKind.Texture2D,
        format := TexFormat.Float Components.RGBA FloatSize.F32 } ∧
    (create_g_buffer w h n).2.2.2.1.info =
      { width := w, height := h, depth := 1, levels := 1,
        kind := TextureKind.Texture2D,
        format := TexFormat.Float Components.RGBA FloatSize.F32 } ∧
    (create_g_buffer w h n).2.1 ≠ (create_g_buffer w h n).2.2.1 ∧
    (create_g_buffer w h n).2.1 ≠ (create_g_buffer w h n).2.2.2.1 ∧
    (create_g_buffer w h n).2.2.1 ≠ (create_g_buffer w h n).2.2.2.1 ∧
    (create_g_buffer w h n).1.depth =
      some (Plane.Texture (create_g_buffer w h n).2.2.2.2.1 0 none) ∧
    (create_g_buffer w h n).2.2.2.2.1.info =
      { width := w, height := h, depth := 1, levels := 1,
        kind := TextureKind.Texture2D,
        format := TexFormat.DEPTH24_STENCIL8 } ∧
    (create_g_buffer w h n).1.width = w ∧
    (create_g_buffer w h n).1.height = h := by
  refine ⟨rfl, rfl, rfl, rfl, ?_, ?_, ?_, rfl, rfl, rfl, rfl⟩ <;>
    simp [create_g_buffer, createTexture, TextureHandle.mk.injEq] <;> omega

/-- C9: the result buffer shares its depth attachment with the geometry
buffer — `create_res_buffer` attaches exactly the depth texture created by
`create_g_buffer` and returns that same handle — while its single color
attachment is a fresh texture distinct from every color attachment of the
geometry buffer, so drawing into the result buffer cannot touch the
geometry buffer's color attachments. -/
theorem res_buffer_shares_depth (w h : ℕ) :
    (main_buffers w h).2.1.depth = (main_buffers w h).1.1.depth ∧
    (main_buffers w h).2.1.depth =
      some (Plane.Texture (main_buffers w h).1.2.2.2.2.1 0 none) ∧
    (main_buffers w h).2.2.2.1 = (main_buffers w h).1.2.2.2.2.1 ∧
    (main_buffers w h).2.1.colors =
      [Plane.Texture (main_buffers w h).2.2.1 0 none] ∧
    (main_buffers w h).2.2.1.id ≠ (main_buffers w h).1.2.1.id ∧
    (main_buffers w h).2.2.1.id ≠ (main_buffers w h).1.2.2.1.id ∧
    (main_buffers w h).2.2.1.id ≠ (main_buffers w h).1.2.2.2.1.id ∧
    Plane.Texture (main_buffers w h).2.2.1 0 none ∉
      (main_buffers w h).1.1.colors := by
  refine ⟨rfl, rfl, rfl, rfl, ?_, ?_, ?_, ?_⟩ <;>
    simp [main_buffers, create_g_buffer, create_res_buffer, createTexture,
          TextureHandle.mk.injEq, Plane.Texture.injEq]

/-- C4: in every frame the first two commands are the clear of the geometry
buffer and the terrain draw into it, and every lighting-pass draw (light or
emitter batch) sits strictly after them in the command list: the lighting
pass is never issued before the geometry pass of the same frame, whichever
debug buffer is selected. -/
theorem geometry_before_lighting (g res : Frame) (tf : TextureHandle)
    (d : Option TextureHandle) :
    (renderFrame g res tf d)[0]? = some (Cmd.clear (Target.offscreen g)) ∧
    (renderFrame g res tf d)[1]? =
      some (Cmd.draw BatchKind.terrain (Target.offscreen g)) ∧
    ∀ i c, (renderFrame g res tf d)[i]? = some c →
      isLightingDraw c = true → 2 ≤ i := by
  refine ⟨?_, ?_, ?_⟩
  · cases d <;> rfl
  · cases d <;> rfl
  · intro i c hc hl
    rcases i with _ | _ | i
    · cases d <;> simp [renderFrame] at hc <;> subst hc <;>
        simp [isLightingDraw] at hl
    · cases d <;> simp [renderFrame] at hc <;> subst hc <;>
        simp [isLightingDraw] at hl
    · omega

/-- C6: with no debug buffer selected, the frame's instanced draws are
exactly one draw of the light batch and one of the emitter batch, each
repeating the cube mesh `NUM_LIGHTS = 250` times into the result buffer;
and the light vertex shader takes this instance's light position from the
light-position block indexed by the instance id. -/
theorem instanced_lights_spec (g res : Frame) (tf : TextureHandle)
    (transform : Vec4 → Vec4) (radius : ℚ) (offs : Fin NUM_LIGHTS → Vec4)
    (iid : Fin NUM_LIGHTS) (aPos : Vec3) :
    (renderFrame g res tf none).filter isInstancedDraw =
      [Cmd.drawInstanced BatchKind.light NUM_LIGHTS 0 (Target.offscreen res),
       Cmd.drawInstanced BatchKind.emitter NUM_LIGHTS 0 (Target.offscreen res)] ∧
    NUM_LIGHTS = 250 ∧
    (light_vertex_shader transform radius offs iid aPos).1 =
      ⟨(offs iid).x, (offs iid).y, (offs iid).z⟩ := by
  exact ⟨rfl, rfl, rfl⟩

/-- C7: every frame issues exactly one blit draw to the window, sampling the
selected debug texture when one is selected and the result-buffer texture
otherwise; the lighting draws run exactly when no debug buffer is selected;
and the event handler only ever selects none or one of the four intermediate
textures (position, normal, diffuse, depth), leaving the selection unchanged
on any other key. -/
theorem blit_selection_spec (g res : Frame)
    (tf tpos tnorm tdiff tdep : TextureHandle) (d : Option TextureHandle) :
    (renderFrame g res tf d).filter isBlitDraw =
      [Cmd.draw (BatchKind.blit (d.getD tf)) Target.window] ∧
    (renderFrame g res tf d).filter isLightingDraw =
      (match d with
       | some _ => []
       | none =>
           [Cmd.drawInstanced BatchKind.light NUM_LIGHTS 0 (Target.offscreen res),
            Cmd.drawInstanced BatchKind.emitter NUM_LIGHTS 0 (Target.offscreen res)]) ∧
    ∀ k d0, handle_key tpos tnorm tdiff tdep k d0 = d0 ∨
      handle_key tpos tnorm tdiff tdep k d0 ∈
        [none, some tpos, some tnorm, some tdiff, some tdep] := by
  refine ⟨?_, ?_, ?_⟩
  · cases d <;> rfl
  · cases d <;> rfl
  · intro k d0
    cases k <;> simp [handle_key]

end GfxDeferred
